import Mathlib

/-!
Shallow embedding of the musicalFlower generative-flower core
(src/Flower.h, src/Flower.cpp).  Machine floats are modelled as exact
rationals.  Transcendental float routines (sin, cos, sqrt, pow, the
simplex noise of ofSignedNoise) and the random generator ofRandom are
abstracted as explicit oracle parameters, so every definition below is
executable and the control flow mirrors the C++ source.
-/

/-- ofClamp from openFrameworks: clamp x into the interval [lo, hi]. -/
def ofClamp (x lo hi : ℚ) : ℚ := max lo (min x hi)

/-- ofLerp from openFrameworks: linear interpolation a + (b - a) * t. -/
def ofLerp (a b t : ℚ) : ℚ := a + (b - a) * t

/-- A C style float-to-int cast: truncation toward zero. -/
def cppToInt (q : ℚ) : ℤ := if 0 ≤ q then ⌊q⌋ else ⌈q⌉

/-- std round as used by the petal-loss phase: round half away from zero. -/
def cppRound (q : ℚ) : ℤ := if 0 ≤ q then ⌊q + 1/2⌋ else ⌈q - 1/2⌉

-- ============================================================
-- Petal path utility (buildPetalPath, Flower.cpp lines 7-29)
-- ============================================================

/-- PetalParams from Flower.h. -/
structure PetalParams where
  count : ℤ
  length : ℚ
  width : ℚ
  tipPointiness : ℚ
  bulgePosition : ℚ
  edgeCurvature : ℚ
  deriving DecidableEq

/-- The closed petal outline: a moveTo followed by two cubic bezier arcs
(control point, control point, end point each), exactly the points fed to
the ofPath in buildPetalPath. -/
structure PetalOutline where
  start : ℚ × ℚ
  c1a : ℚ × ℚ
  c1b : ℚ × ℚ
  e1 : ℚ × ℚ
  c2a : ℚ × ℚ
  c2b : ℚ × ℚ
  e2 : ℚ × ℚ
  deriving DecidableEq

/-- buildPetalPath from Flower.cpp: the geometry written into the path
(the fill color is dropped; it does not affect the outline). -/
def buildPetalPath (p : PetalParams) : PetalOutline :=
  let halfWidth := p.length * p.width
  let bulgeY := p.length * ofClamp p.bulgePosition (1/20) (19/20)
  let tipWidth := halfWidth * (1 - ofClamp p.tipPointiness 0 1)
  let curveShift := p.edgeCurvature * halfWidth * (1/2)
  { start := (0, 0)
    c1a := (-(halfWidth + curveShift), -bulgeY)
    c1b := (-tipWidth, -(p.length - p.length * (2/25)))
    e1 := (0, -p.length)
    c2a := (tipWidth, -(p.length - p.length * (2/25)))
    c2b := (halfWidth + curveShift, -bulgeY)
    e2 := (0, 0) }

-- ============================================================
-- Inflorescence (Flower.cpp lines 35-264)
-- ============================================================

inductive HeadType where
  | RADIAL
  | PHYLLOTAXIS
  | ROSE_CURVE
  | SUPERFORMULA
  | LAYERED_WHORLS
  deriving DecidableEq

structure PhyllotaxisParams where
  spiralSpacing : ℚ
  deriving DecidableEq

structure RoseCurveParams where
  k : ℚ
  baseScale : ℚ
  deriving DecidableEq

structure SuperformulaParams where
  m : ℚ
  n1 : ℚ
  n2 : ℚ
  n3 : ℚ
  a : ℚ
  b : ℚ
  deriving DecidableEq

structure LayeredWhorlsParams where
  layerCount : ℤ
  petalsPerLayer : ℤ
  lengthFalloff : ℚ
  widthGrowth : ℚ
  phaseShift : ℚ
  deriving DecidableEq

structure NoiseModParams where
  enabled : Bool
  seed : ℚ
  lengthAmount : ℚ
  angleAmount : ℚ
  scaleAmount : ℚ
  timeSpeed : ℚ
  deriving DecidableEq

/-- InflorescenceParams from Flower.h (the two colors are omitted: they
only tint the fill and never affect any geometry the claims mention). -/
structure InflorescenceParams where
  headType : HeadType
  petal : PetalParams
  centerRadius : ℚ
  rotation : ℚ
  phyllotaxis : PhyllotaxisParams
  roseCurve : RoseCurveParams
  superformula : SuperformulaParams
  whorls : LayeredWhorlsParams
  noise : NoiseModParams
  deriving DecidableEq

/-- The mutable state of one Inflorescence object: its parameters, the
cached petal outlines (petalPath, or whorlPaths for LAYERED_WHORLS) and
the dirty flag. -/
structure Inflorescence where
  params : InflorescenceParams
  cache : List PetalOutline
  dirty : Bool
  deriving DecidableEq

/-- Inflorescence::setup. -/
def Inflorescence.setup (s : Inflorescence) (p : InflorescenceParams) : Inflorescence :=
  { s with params := p, dirty := true }

/-- Inflorescence::setParams. -/
def Inflorescence.setParams (s : Inflorescence) (p : InflorescenceParams) : Inflorescence :=
  { s with params := p, dirty := true }

/-- Inflorescence::rebuild: for LAYERED_WHORLS one outline per layer with
per-layer length falloff and width growth, otherwise the single petal
outline. -/
def Inflorescence.rebuildPaths (p : InflorescenceParams) : List PetalOutline :=
  if p.headType = HeadType.LAYERED_WHORLS then
    let w := p.whorls
    (List.range w.layerCount.toNat).map (fun layer =>
      let t : ℚ := (layer : ℚ) / ((max (w.layerCount - 1) 1 : ℤ) : ℚ)
      let lp := { p.petal with
        length := p.petal.length * (1 - t * (1 - w.lengthFalloff)),
        width := min (p.petal.width * (1 + t * (w.widthGrowth - 1))) (4/5) }
      buildPetalPath lp)
  else
    [buildPetalPath p.petal]

/-- Result of one Inflorescence::draw call: the cached outlines used, a
flag recording whether rebuild ran, and the state afterwards. -/
structure DrawResult where
  outlines : List PetalOutline
  rebuilt : Bool
  state : Inflorescence
  deriving DecidableEq

/-- Inflorescence::draw, restricted to its cache behaviour: rebuild runs
exactly when the dirty flag is set. -/
def Inflorescence.draw (s : Inflorescence) : DrawResult :=
  if s.dirty then
    let c := Inflorescence.rebuildPaths s.params
    { outlines := c, rebuilt := true, state := { s with cache := c, dirty := false } }
  else
    { outlines := s.cache, rebuilt := false, state := s }

-- ============================================================
-- Head topology draw routines (Flower.cpp lines 66-264)
-- ============================================================

/-- Result of Inflorescence::computeNoise for one petal. -/
structure NoiseResult where
  lengthScale : ℚ
  angleDeg : ℚ
  scaleVal : ℚ
  deriving DecidableEq

/-- Inflorescence::computeNoise; ofSignedNoise and the elapsed clock are
supplied as oracles (signedNoise, time). -/
def Inflorescence.computeNoise (p : InflorescenceParams) (signedNoise : ℚ → ℚ → ℚ)
    (time : ℚ) (petalIdx : ℕ) : NoiseResult :=
  if p.noise.enabled = false then { lengthScale := 1, angleDeg := 0, scaleVal := 0 }
  else
    let t := time * p.noise.timeSpeed
    let px := p.noise.seed + (petalIdx : ℚ) * (73/10)
    { lengthScale := 1 + signedNoise px t * p.noise.lengthAmount
      angleDeg := signedNoise (px + 100) t * p.noise.angleAmount
      scaleVal := signedNoise (px + 200) t * p.noise.scaleAmount }

/-- Oracle for the transcendental float routines the head strategies use;
arguments of the trigonometric members are in degrees. -/
structure FloatOps where
  cosDeg : ℚ → ℚ
  sinDeg : ℚ → ℚ
  sqrtQ : ℚ → ℚ
  powQ : ℚ → ℚ → ℚ

/-- One petal draw command: the matrix pushed for one petal (translate,
rotate, scale) plus which cached path it draws. -/
structure PetalPlacement where
  translateX : ℚ
  translateY : ℚ
  rotateDeg : ℚ
  scaleX : ℚ
  scaleY : ℚ
  pathIdx : ℕ
  deriving DecidableEq

/-- Inflorescence::drawRadial. -/
def Inflorescence.drawRadial (p : InflorescenceParams) (signedNoise : ℚ → ℚ → ℚ)
    (time : ℚ) : List PetalPlacement :=
  let count := p.petal.count
  if count ≤ 0 then []
  else
    let angleStep : ℚ := 360 / (count : ℚ)
    (List.range count.toNat).map (fun (i : ℕ) =>
      let nr := Inflorescence.computeNoise p signedNoise time i
      { translateX := 0, translateY := 0,
        rotateDeg := (i : ℚ) * angleStep + nr.angleDeg,
        scaleX := 1 + nr.scaleVal, scaleY := nr.lengthScale, pathIdx := 0 })

/-- Inflorescence::drawPhyllotaxis. -/
def Inflorescence.drawPhyllotaxis (p : InflorescenceParams) (ops : FloatOps)
    (signedNoise : ℚ → ℚ → ℚ) (time : ℚ) : List PetalPlacement :=
  let count := p.petal.count
  if count ≤ 0 then []
  else
    let c := p.phyllotaxis.spiralSpacing
    let goldenAngle : ℚ := 137508/1000
    (List.range count.toNat).map (fun (i : ℕ) =>
      let angle := (i : ℚ) * goldenAngle
      let r := c * ops.sqrtQ (i : ℚ)
      let nr := Inflorescence.computeNoise p signedNoise time i
      { translateX := r * ops.cosDeg angle, translateY := -(r * ops.sinDeg angle),
        rotateDeg := -angle + 90 + nr.angleDeg,
        scaleX := 1 + nr.scaleVal, scaleY := nr.lengthScale, pathIdx := 0 })

/-- Inflorescence::drawRoseCurve. -/
def Inflorescence.drawRoseCurve (p : InflorescenceParams) (ops : FloatOps)
    (signedNoise : ℚ → ℚ → ℚ) (time : ℚ) : List PetalPlacement :=
  let count := p.petal.count
  if count ≤ 0 then []
  else
    let k := p.roseCurve.k
    let baseScale := p.roseCurve.baseScale
    let angleStep : ℚ := 360 / (count : ℚ)
    (List.range count.toNat).map (fun (i : ℕ) =>
      let angle := (i : ℚ) * angleStep
      let roseVal := |ops.cosDeg (k * angle)|
      let lengthMod := baseScale + roseVal * (1 - baseScale)
      let nr := Inflorescence.computeNoise p signedNoise time i
      { translateX := 0, translateY := 0,
        rotateDeg := angle + nr.angleDeg,
        scaleX := 1 + nr.scaleVal, scaleY := lengthMod * nr.lengthScale, pathIdx := 0 })

/-- Inflorescence::drawSuperformula. -/
def Inflorescence.drawSuperformula (p : InflorescenceParams) (ops : FloatOps)
    (signedNoise : ℚ → ℚ → ℚ) (time : ℚ) : List PetalPlacement :=
  let count := p.petal.count
  if count ≤ 0 then []
  else
    let sf := p.superformula
    let angleStep : ℚ := 360 / (count : ℚ)
    (List.range count.toNat).map (fun (i : ℕ) =>
      let angle := (i : ℚ) * angleStep
      let ct := ops.cosDeg (sf.m * angle / 4) / sf.a
      let st := ops.sinDeg (sf.m * angle / 4) / sf.b
      let term := ops.powQ |ct| sf.n2 + ops.powQ |st| sf.n3
      let r0 := if term > 1/1000000 then ops.powQ term (-1 / sf.n1) else 1
      let r := ofClamp r0 (1/5) (3/2)
      let nr := Inflorescence.computeNoise p signedNoise time i
      { translateX := 0, translateY := 0,
        rotateDeg := angle + nr.angleDeg,
        scaleX := 1 + nr.scaleVal, scaleY := r * nr.lengthScale, pathIdx := 0 })

/-- Inflorescence::drawLayeredWhorls; numPaths is whorlPaths.size().  The
inner loop breaks when the global index reaches totalVisible, which is
rendered here as takeWhile since the index grows with p. -/
def Inflorescence.drawLayeredWhorls (p : InflorescenceParams) (numPaths : ℕ)
    (signedNoise : ℚ → ℚ → ℚ) (time : ℚ) : List PetalPlacement :=
  let totalVisible := p.petal.count
  if totalVisible ≤ 0 then []
  else
    let w := p.whorls
    let layers := w.layerCount
    let perLayer := w.petalsPerLayer
    ((List.range layers.toNat).reverse.filter (fun layer => layer < numPaths)).flatMap
      (fun layer =>
        let layerStart := (layer : ℤ) * perLayer
        let angleStep : ℚ := 360 / (perLayer : ℚ)
        let phaseOffset := if layer % 2 = 1 then angleStep * w.phaseShift else 0
        ((List.range perLayer.toNat).takeWhile
            (fun (q : ℕ) => decide (layerStart + (q : ℤ) < totalVisible))).map
          (fun (q : ℕ) =>
            let angle := (q : ℚ) * angleStep + phaseOffset
            let nr := Inflorescence.computeNoise p signedNoise time (layerStart + (q : ℤ)).toNat
            { translateX := 0, translateY := 0,
              rotateDeg := angle + nr.angleDeg,
              scaleX := 1 + nr.scaleVal, scaleY := nr.lengthScale, pathIdx := layer }))

-- ============================================================
-- Falling Petal System (Flower.cpp lines 466-575)
-- ============================================================

/-- FallingPetalConfig from Flower.h. -/
structure FallingPetalConfig where
  gravity : ℚ
  waverAmplitude : ℚ
  waverFrequency : ℚ
  tumbleSpeed : ℚ
  fadeDelay : ℚ
  fadeSpeed : ℚ
  initialUpPop : ℚ
  maxLifetime : ℚ
  deriving DecidableEq

/-- The default member values of FallingPetalConfig in Flower.h. -/
def defaultFallingPetalConfig : FallingPetalConfig :=
  { gravity := 50, waverAmplitude := 25, waverFrequency := 3/5, tumbleSpeed := 120,
    fadeDelay := 3/2, fadeSpeed := 3/5, initialUpPop := 10, maxLifetime := 4 }

/-- FallingPetal from Flower.h (shape and color omitted: they never feed
back into the motion). -/
structure FallingPetal where
  basePositionX : ℚ
  basePositionY : ℚ
  velocityX : ℚ
  velocityY : ℚ
  rotation : ℚ
  rotationSpeed : ℚ
  alpha : ℚ
  age : ℚ
  waverPhase : ℚ
  waverAmp : ℚ
  waverFreq : ℚ
  alive : Bool
  deriving DecidableEq

/-- The ofRandom draws consumed by one FallingPetalSystem::spawn call. -/
structure SpawnDraw where
  tumbleMult : ℚ
  tumbleSign : ℚ
  waverPhase : ℚ
  waverAmpMult : ℚ
  waverFreqMult : ℚ
  deriving DecidableEq

/-- FallingPetalSystem::spawn: builds the new petal record.  sinDeg and
cosDeg of the detach angle come from the float-ops oracle. -/
def FallingPetalSystem.spawn (cfg : FallingPetalConfig) (ops : FloatOps) (d : SpawnDraw)
    (headPosX headPosY detachAngleDeg shapeLength : ℚ) : FallingPetal :=
  let midDist := shapeLength * (2/5)
  let outward := cfg.initialUpPop * (2/5)
  { basePositionX := headPosX + midDist * ops.sinDeg detachAngleDeg
    basePositionY := headPosY - midDist * ops.cosDeg detachAngleDeg
    velocityX := ops.sinDeg detachAngleDeg * outward
    velocityY := -cfg.initialUpPop
    rotation := detachAngleDeg
    rotationSpeed := cfg.tumbleSpeed * d.tumbleMult * d.tumbleSign
    alpha := 1
    age := 0
    waverPhase := d.waverPhase
    waverAmp := cfg.waverAmplitude * d.waverAmpMult
    waverFreq := cfg.waverFrequency * d.waverFreqMult
    alive := true }

/-- The body of the per-petal loop inside FallingPetalSystem::update;
height is ofGetHeight(). -/
def FallingPetalSystem.stepPetal (cfg : FallingPetalConfig) (height dt : ℚ)
    (fp : FallingPetal) : FallingPetal :=
  if fp.alive = false then fp
  else
    let fp := { fp with age := fp.age + dt }
    if fp.age > cfg.maxLifetime ∨ fp.basePositionY > height + 50 then
      { fp with alive := false }
    else
      let fp := { fp with velocityY := fp.velocityY + cfg.gravity * dt }
      let fp := { fp with basePositionX := fp.basePositionX + fp.velocityX * dt,
                          basePositionY := fp.basePositionY + fp.velocityY * dt }
      let fp := { fp with rotation := fp.rotation + fp.rotationSpeed * dt }
      let fp : FallingPetal :=
        if fp.age > cfg.fadeDelay then
          let a := fp.alpha - cfg.fadeSpeed * dt
          { fp with alpha := if a < 0 then 0 else a }
        else fp
      if fp.alpha ≤ 0 then { fp with alive := false } else fp

/-- FallingPetalSystem::update: step every petal, then purge dead ones. -/
def FallingPetalSystem.update (cfg : FallingPetalConfig) (height dt : ℚ)
    (petals : List FallingPetal) : List FallingPetal :=
  (petals.map (FallingPetalSystem.stepPetal cfg height dt)).filter (fun fp => fp.alive)

/-- Repeated FallingPetalSystem::update calls, one per entry of dts. -/
def FallingPetalSystem.updates (cfg : FallingPetalConfig) (height : ℚ)
    (dts : List ℚ) (petals : List FallingPetal) : List FallingPetal :=
  dts.foldl (fun ps dt => FallingPetalSystem.update cfg height dt ps) petals

-- ============================================================
-- Beat / onset detection (FlowerField::update, Flower.cpp lines 902-921)
-- ============================================================

/-- The beat-detector portion of the FlowerField state. -/
structure BeatState where
  slowVolume : ℚ
  beatCooldown : ℚ
  elapsedTime : ℚ
  beatHistory : List ℚ
  deriving DecidableEq

/-- The volume ratio of the beat check: guarded to 0 when the slow
baseline is at or below 0.01. -/
def beatVolumeQuotient (slowVolume smoothedVolume : ℚ) : ℚ :=
  if slowVolume > 1/100 then smoothedVolume / slowVolume else 0

/-- The firing condition of the beat detector, evaluated on the already
updated slow volume and already decremented cooldown. -/
def beatFires (slowVolume smoothedVolume beatCooldown : ℚ) : Bool :=
  decide (beatCooldown ≤ 0) && decide (smoothedVolume > 1/20) &&
    decide (beatVolumeQuotient slowVolume smoothedVolume > 7/5)

/-- The purge loop: pop timestamps older than 5 seconds from the front. -/
def purgeBeatHistory (elapsed : ℚ) (hist : List ℚ) : List ℚ :=
  hist.dropWhile (fun t => decide (elapsed - t > 5))

/-- One tick of the beat detector (Flower.cpp lines 902-921): slow EMA
with alpha 0.02, cooldown decrement, fire check, 0.25 s cooldown reset,
timestamp push and history purge.  Returns the new state and whether a
beat fired this frame. -/
def beatStep (s : BeatState) (smoothedVolume dt : ℚ) : BeatState × Bool :=
  let slowVolume := s.slowVolume * (1 - 1/50) + smoothedVolume * (1/50)
  let cd := s.beatCooldown - dt
  let elapsed := s.elapsedTime + dt
  let fired := beatFires slowVolume smoothedVolume cd
  let cd := if fired then 1/4 else cd
  let hist := if fired then s.beatHistory ++ [elapsed] else s.beatHistory
  ({ slowVolume := slowVolume, beatCooldown := cd, elapsedTime := elapsed,
     beatHistory := purgeBeatHistory elapsed hist }, fired)

/-- Run the beat detector over a list of (smoothedVolume, dt) ticks;
the Bool records whether any beat fired during the run. -/
def beatRun : BeatState → List (ℚ × ℚ) → BeatState × Bool
  | s, [] => (s, false)
  | s, (v, d) :: rest =>
      let r := beatStep s v d
      let r2 := beatRun r.1 rest
      (r2.1, r.2 || r2.2)

-- ============================================================
-- FlowerField data model (Flower.h lines 363-497)
-- ============================================================

/-- FlowerInstance, restricted to the fields that feed the lifecycle and
population logic (the rendering-only base parameters, colors, rotation
accumulator and the nested Flower object are omitted; they never feed
back into lifecycle, population or draw order). -/
structure FlowerInstance where
  normPosY : ℚ
  basePetalCount : ℤ
  basePointiness : ℚ
  pitchDirection : ℚ
  lifeSpeedMult : ℚ
  lifePhase : ℚ
  currentAlpha : ℚ
  lastVisiblePetals : ℤ
  fastDeath : Bool
  fastDeathTimer : ℚ
  deriving DecidableEq

/-- The in-class initializers of FlowerInstance in Flower.h. -/
instance : Inhabited FlowerInstance :=
  ⟨{ normPosY := 0, basePetalCount := 0, basePointiness := 0, pitchDirection := 0,
     lifeSpeedMult := 1, lifePhase := 0, currentAlpha := 1, lastVisiblePetals := -1,
     fastDeath := false, fastDeathTimer := 0 }⟩

/-- The ofRandom draws consumed by one FlowerField::respawnFlower call,
restricted to the fields the embedding tracks. -/
structure RespawnDraw where
  normPosY : ℚ
  basePetalCount : ℤ
  basePointiness : ℚ
  pitchDirection : ℚ
  lifeSpeedMult : ℚ
  deriving DecidableEq

/-- FlowerField::respawnFlower (Flower.cpp lines 643-822) on the tracked
fields: random identity is installed from the draw, fast-death state is
reset and lastVisiblePetals is set to -1.  lifePhase and currentAlpha are
not touched by respawnFlower itself (the caller resets lifePhase). -/
def FlowerField.respawnFlower (fi : FlowerInstance) (d : RespawnDraw) : FlowerInstance :=
  { fi with normPosY := d.normPosY, basePetalCount := d.basePetalCount,
            basePointiness := d.basePointiness, pitchDirection := d.pitchDirection,
            lifeSpeedMult := d.lifeSpeedMult,
            fastDeath := false, fastDeathTimer := 0, lastVisiblePetals := -1 }

/-- Per-phase lifecycle outputs computed inside the instance loop of
FlowerField::update (Flower.cpp lines 986-1036). -/
structure LifecycleOut where
  scale : ℚ
  stemScale : ℚ
  stemCurveMod : ℚ
  alpha : ℚ
  volumePulse : ℚ
  currentPointiness : ℚ
  visiblePetals : ℤ
  deriving DecidableEq

/-- The phase-segment dispatch of FlowerField::update: growing
[0, 0.15), blooming [0.15, 0.60), losing petals [0.60, 0.80), wilting
[0.80, 0.95), dead [0.95, ...). -/
def lifecycleOutputs (phase : ℚ) (basePetalCount : ℤ)
    (basePointiness pitchDirection smoothedVolume pitchNorm : ℚ) : LifecycleOut :=
  if phase < 3/20 then
    let t := phase / (3/20)
    { scale := t * t, stemScale := t, stemCurveMod := 0, alpha := t,
      volumePulse := 1, currentPointiness := basePointiness,
      visiblePetals := basePetalCount }
  else if phase < 3/5 then
    { scale := 1, stemScale := 1, stemCurveMod := 0, alpha := 1,
      volumePulse := 1 + smoothedVolume * (9/10),
      currentPointiness := ofClamp (basePointiness + pitchDirection * pitchNorm * (7/20)) 0 1,
      visiblePetals := basePetalCount }
  else if phase < 4/5 then
    let t := (phase - 3/5) / (1/5)
    let reactivity := 1 - t
    { scale := 1 - t * (3/10), stemScale := 1, stemCurveMod := 0, alpha := 1,
      volumePulse := 1 + smoothedVolume * (9/10) * reactivity,
      currentPointiness :=
        ofClamp (basePointiness + pitchDirection * pitchNorm * (7/20) * reactivity) 0 1,
      visiblePetals := max 0 (cppRound ((basePetalCount : ℚ) * (1 - t))) }
  else if phase < 19/20 then
    let t := (phase - 4/5) / (3/20)
    { scale := (1 - t) * (7/10), stemScale := 1 - t * (3/5), stemCurveMod := t * (3/2),
      alpha := 1 - t * (3/5), volumePulse := 1, currentPointiness := basePointiness,
      visiblePetals := 0 }
  else
    let t := (phase - 19/20) / (1/20)
    { scale := 1/100, stemScale := (2/5) * (1 - t), stemCurveMod := 3/2,
      alpha := (1 - t) * (2/5), volumePulse := 1, currentPointiness := basePointiness,
      visiblePetals := 0 }

/-- One iteration of the per-instance loop of FlowerField::update
(Flower.cpp lines 968-1132) on the tracked fields: phase advance, cycle
completion (sentinel when over target, respawn otherwise), lifecycle
outputs, fast-death override, alpha clamp and the lastVisiblePetals
write-back.  sizeAfterGrowth is instances.size() during the loop; draw
feeds a possible respawnFlower call.  Returns the instance and whether it
respawned. -/
def FlowerField.stepInstance (fi0 : FlowerInstance) (dt speed smoothedVolume pitchNorm : ℚ)
    (sizeAfterGrowth targetCount : ℤ) (draw : RespawnDraw) : FlowerInstance × Bool :=
  let fi := { fi0 with lifePhase := fi0.lifePhase + speed * fi0.lifeSpeedMult * dt }
  if fi.lifePhase ≥ 1 ∧ sizeAfterGrowth > targetCount then
    ({ fi with lifePhase := 999 }, false)
  else
    let r : FlowerInstance × Bool :=
      if fi.lifePhase ≥ 1 then
        ({ FlowerField.respawnFlower fi draw with lifePhase := 0 }, true)
      else (fi, false)
    let fi := r.1
    let out := lifecycleOutputs fi.lifePhase fi.basePetalCount fi.basePointiness
      fi.pitchDirection smoothedVolume pitchNorm
    if fi.fastDeath then
      let timer := fi.fastDeathTimer + dt * (3/2)
      if timer ≥ 1 then
        ({ fi with fastDeathTimer := timer, currentAlpha := 0, lifePhase := 999 }, r.2)
      else
        let fd := timer
        let out := { out with visiblePetals := 0,
                              scale := max (1/100) ((1 - fd) * (7/10)),
                              stemScale := 1 - fd * (7/10),
                              stemCurveMod := fd * 3,
                              alpha := 1 - fd * fd }
        ({ fi with fastDeathTimer := timer,
                   currentAlpha := ofClamp out.alpha 0 1,
                   lastVisiblePetals := out.visiblePetals }, r.2)
    else
      ({ fi with currentAlpha := ofClamp out.alpha 0 1,
                 lastVisiblePetals := out.visiblePetals }, r.2)

/-- Number of random attempts per fast-death pick (Flower.cpp line 954). -/
def markAttempts : ℕ := 5

/-- The inner retry loop of the shrink branch (Flower.cpp lines 954-964):
up to five random picks looking for an alive, visible, not already dying
candidate; on success that one instance is marked and the loop breaks.
The fuel argument counts the remaining attempts. -/
def FlowerField.tryMarkOne (pick : ℕ → ℕ) : ℕ → List FlowerInstance → List FlowerInstance
  | 0, insts => insts
  | Nat.succ n, insts =>
    let idx := pick (markAttempts - Nat.succ n) % insts.length
    match insts[idx]? with
    | none => FlowerField.tryMarkOne pick n insts
    | some c =>
      if c.fastDeath = false ∧ c.lifePhase > 3/20 ∧ c.lifePhase < 4/5 then
        insts.set idx { c with fastDeath := true, fastDeathTimer := 0 }
      else FlowerField.tryMarkOne pick n insts

/-- The outer shrink loop (Flower.cpp lines 950-966): toMark passes of
tryMarkOne, each with its own random picks. -/
def FlowerField.markLoop (picks : ℕ → ℕ → ℕ) : ℕ → ℕ → List FlowerInstance → List FlowerInstance
  | _, 0, insts => insts
  | i, Nat.succ n, insts =>
      FlowerField.markLoop picks (i + 1) n (FlowerField.tryMarkOne (picks i) markAttempts insts)

/-- The growth branch (Flower.cpp lines 939-948): spawn toSpawn fresh
instances at lifePhase 0 and append them. -/
def FlowerField.growInstances (insts : List FlowerInstance) (draws : ℕ → RespawnDraw)
    (toSpawn : ℕ) : List FlowerInstance :=
  insts ++ (List.range toSpawn).map (fun k =>
    { FlowerField.respawnFlower default (draws k) with lifePhase := 0 })

/-- The random streams consumed by one FlowerField::update call. -/
structure UpdateEnv where
  spawnDraw : ℕ → RespawnDraw
  respawnDraw : ℕ → RespawnDraw
  markPick : ℕ → ℕ → ℕ

/-- The population adjustment of FlowerField::update (lines 936-966):
batched growth of at most 10 per tick when below target, marking of at
most five fast deaths when more than five over target. -/
def FlowerField.popAdjust (insts : List FlowerInstance) (targetCount : ℤ)
    (env : UpdateEnv) : List FlowerInstance :=
  let currentCount : ℤ := insts.length
  if currentCount < targetCount then
    FlowerField.growInstances insts env.spawnDraw (min (targetCount - currentCount) 10).toNat
  else if currentCount > targetCount + 5 then
    FlowerField.markLoop env.markPick 0 (min (currentCount - targetCount) 5).toNat insts
  else insts

/-- Draw-order comparison of FlowerField: ascending normalized y. -/
def leY (a b : FlowerInstance) : Prop := a.normPosY ≤ b.normPosY

instance : DecidableRel leY :=
  fun a b => inferInstanceAs (Decidable (a.normPosY ≤ b.normPosY))

instance : IsTotal FlowerInstance leY := ⟨fun a b => le_total a.normPosY b.normPosY⟩

instance : IsTrans FlowerInstance leY := ⟨fun _ _ _ h1 h2 => le_trans h1 h2⟩

/-- The std sort call of FlowerField (back to front by normPos.y); any
sorting algorithm models the unspecified std sort. -/
def sortByY (l : List FlowerInstance) : List FlowerInstance := List.insertionSort leY l

/-- The FlowerField state (Flower.h lines 469-497), without the pitch
smoother (its log2 normalization is transcendental and feeds only the
pointiness modulation, which update receives here as pitchNorm). -/
structure FlowerField where
  instances : List FlowerInstance
  smoothedVolume : ℚ
  smoothedFullness : ℚ
  slowVolume : ℚ
  beatCooldown : ℚ
  elapsedTime : ℚ
  beatHistory : List ℚ
  activityLevel : ℚ
  reactiveMode : Bool
  baseCount : ℤ

/-- FlowerField::setup (Flower.cpp lines 848-863): respawn count fresh
instances, stagger their starting phases, then sort back to front. -/
def FlowerField.setup (count : ℕ) (draws : ℕ → RespawnDraw) (phases : ℕ → ℚ) : FlowerField :=
  let insts := (List.range count).map (fun i =>
    { FlowerField.respawnFlower default (draws i) with lifePhase := phases i })
  { instances := sortByY insts,
    smoothedVolume := 0, smoothedFullness := 0, slowVolume := 0, beatCooldown := 0,
    elapsedTime := 0, beatHistory := [], activityLevel := 0, reactiveMode := false,
    baseCount := (count : ℤ) }

/-- What one FlowerField::update call produces: the new state plus the
needsSort flag, the beat flag and the tick population target. -/
structure UpdateResult where
  state : FlowerField
  needsSort : Bool
  beatThisFrame : Bool
  targetCount : ℤ

/-- FlowerField::update (Flower.cpp lines 865-1150) on the embedded
state: input smoothing, lifecycle speed, beat detection, activity score,
population target, batched growth or fast-death marking, the per-instance
loop, sentinel erasure and the conditional re-sort.  The falling-petal
subsystem is stepped separately by FallingPetalSystem.update. -/
def FlowerField.update (s : FlowerField) (volume fullness dtRaw pitchNorm : ℚ)
    (env : UpdateEnv) : UpdateResult :=
  let volAlpha : ℚ := 2/25
  let fullAlpha : ℚ := 1/10
  let smoothedVolume := s.smoothedVolume * (1 - volAlpha) + ofClamp (volume * 5) 0 1 * volAlpha
  let smoothedFullness := s.smoothedFullness * (1 - fullAlpha) + fullness * fullAlpha
  let dt := ofClamp dtRaw (1/1000) (1/10)
  let baseSpeed : ℚ := 1/18
  let speed0 := baseSpeed * (1/20 + smoothedFullness * (19/20))
  let speed :=
    if s.reactiveMode then speed0 * (1 + s.activityLevel * (3/2))
    else if (s.instances.length : ℤ) > s.baseCount then
      let overshoot := (s.instances.length : ℚ) / ((s.baseCount : ℤ) : ℚ)
      speed0 * (1 + (overshoot - 1) * 2)
    else speed0
  let br := beatStep { slowVolume := s.slowVolume, beatCooldown := s.beatCooldown,
                       elapsedTime := s.elapsedTime, beatHistory := s.beatHistory }
                     smoothedVolume dt
  let beatDensity := ofClamp ((br.1.beatHistory.length : ℚ) / 20) 0 1
  let rawActivity := (1/2) * beatDensity + (3/10) * smoothedVolume + (1/5) * smoothedFullness
  let actAlpha : ℚ := 3/100
  let activityLevel := s.activityLevel * (1 - actAlpha) + rawActivity * actAlpha
  let targetCount : ℤ :=
    if s.reactiveMode then cppToInt (ofLerp 30 1500 activityLevel) else s.baseCount
  let grew : Bool := decide ((s.instances.length : ℤ) < targetCount)
  let insts1 := FlowerField.popAdjust s.instances targetCount env
  let sizeAfterGrowth : ℤ := insts1.length
  let stepped := insts1.enum.map (fun p =>
    FlowerField.stepInstance p.2 dt speed smoothedVolume pitchNorm sizeAfterGrowth
      targetCount (env.respawnDraw p.1))
  let needsSort := grew || stepped.any (fun p => p.2)
  let insts2 := (stepped.map Prod.fst).filter (fun fi => decide (fi.lifePhase < 2))
  let insts3 := if needsSort then sortByY insts2 else insts2
  let finalState : FlowerField :=
    { s with instances := insts3,
             smoothedVolume := smoothedVolume, smoothedFullness := smoothedFullness,
             slowVolume := br.1.slowVolume, beatCooldown := br.1.beatCooldown,
             elapsedTime := br.1.elapsedTime, beatHistory := br.1.beatHistory,
             activityLevel := activityLevel }
  { state := finalState, needsSort := needsSort, beatThisFrame := br.2,
    targetCount := targetCount }

-- ============================================================
-- Auxiliary definitions for the verification
-- ============================================================

/-- Number of instances currently flagged for fast death. -/
def countFastDeath (l : List FlowerInstance) : ℕ := l.countP (fun fi => fi.fastDeath)

/-- How one slot can evolve under the fast-death marking loop: either it
is untouched, or it was an eligible candidate and got marked. -/
def markEvolve (c c2 : FlowerInstance) : Prop :=
  c2 = c ∨ (c.fastDeath = false ∧ c.lifePhase > 3/20 ∧ c.lifePhase < 4/5 ∧
            c2 = { c with fastDeath := true, fastDeathTimer := 0 })

/-- A concrete InflorescenceParams value with petal count 0 (all other
members at their Flower.h defaults). -/
def degenerateParams : InflorescenceParams :=
  { headType := HeadType.RADIAL,
    petal := { count := 0, length := 60, width := 7/20, tipPointiness := 1/2,
               bulgePosition := 1/2, edgeCurvature := 1/5 },
    centerRadius := 8, rotation := 0,
    phyllotaxis := { spiralSpacing := 4 },
    roseCurve := { k := 3, baseScale := 3/10 },
    superformula := { m := 5, n1 := 1, n2 := 1, n3 := 1, a := 1, b := 1 },
    whorls := { layerCount := 3, petalsPerLayer := 6, lengthFalloff := 7/10,
                widthGrowth := 7/5, phaseShift := 1/2 },
    noise := { enabled := false, seed := 0, lengthAmount := 3/20, angleAmount := 8,
               scaleAmount := 1/10, timeSpeed := 3/10 } }

/-- A trivial float-operation oracle used for concrete evaluations. -/
def trivialOps : FloatOps :=
  { cosDeg := fun _ => 0, sinDeg := fun _ => 0, sqrtQ := fun _ => 0, powQ := fun _ _ => 0 }

/-- A concrete mid-bloom flower instance. -/
def bloomInst : FlowerInstance :=
  { normPosY := 1/2, basePetalCount := 8, basePointiness := 1/2, pitchDirection := 1,
    lifeSpeedMult := 1, lifePhase := 1/2, currentAlpha := 1, lastVisiblePetals := 8,
    fastDeath := false, fastDeathTimer := 0 }

/-- The mid-bloom instance after being marked for fast death. -/
def markedInst : FlowerInstance :=
  { bloomInst with fastDeath := true, fastDeathTimer := 0 }

/-- A concrete instance already in fast death. -/
def dyingInst : FlowerInstance :=
  { bloomInst with fastDeath := true }

/-- A concrete respawn draw. -/
def constDraw : RespawnDraw :=
  { normPosY := 1/2, basePetalCount := 8, basePointiness := 1/2, pitchDirection := 1,
    lifeSpeedMult := 1 }

/-- Constant random streams for concrete evaluations. -/
def constEnv : UpdateEnv :=
  { spawnDraw := fun _ => constDraw, respawnDraw := fun _ => constDraw,
    markPick := fun _ _ => 0 }

/-- A concrete empty field in reactive mode. -/
def reactiveField : FlowerField :=
  { instances := [], smoothedVolume := 0, smoothedFullness := 0, slowVolume := 0,
    beatCooldown := 0, elapsedTime := 0, beatHistory := [], activityLevel := 0,
    reactiveMode := true, baseCount := 300 }

/-- A concrete empty field in normal mode with baseCount 1. -/
def calmField : FlowerField :=
  { instances := [], smoothedVolume := 0, smoothedFullness := 0, slowVolume := 0,
    beatCooldown := 0, elapsedTime := 0, beatHistory := [], activityLevel := 0,
    reactiveMode := false, baseCount := 1 }

/-- A concrete beat-detector state on a near-silent baseline. -/
def quietBeat : BeatState :=
  { slowVolume := 1/200, beatCooldown := 0, elapsedTime := 0, beatHistory := [] }

/-- A concrete beat-detector state settled at a low but audible level. -/
def settledBeat : BeatState :=
  { slowVolume := 1/50, beatCooldown := 0, elapsedTime := 0, beatHistory := [] }

-- ============================================================
-- Helper lemmas
-- ============================================================

theorem le_ofClamp (x lo hi : ℚ) : lo ≤ ofClamp x lo hi := le_max_left lo (min x hi)

theorem ofClamp_le {x lo hi : ℚ} (h : lo ≤ hi) : ofClamp x lo hi ≤ hi :=
  max_le h (min_le_right x hi)

-- ============================================================
-- Claim theorems
-- ============================================================

/-- C1: during the petal-loss phase, for every instance with lifePhase in
[0.60, 0.80), the visible petal count computed by FlowerField::update is
round(basePetalCount * (1 - t)) with t = (lifePhase - 0.60) / 0.20,
floored at 0; in particular at lifePhase = 0.79 with basePetalCount = 8
the visible petal count is 0. -/
theorem losing_petals_visible_count (count : ℤ) (pointiness pdir vol pn : ℚ) (phase : ℚ)
    (h1 : 3/5 ≤ phase) (h2 : phase < 4/5) :
    (lifecycleOutputs phase count pointiness pdir vol pn).visiblePetals
      = max 0 (cppRound ((count : ℚ) * (1 - (phase - 3/5) / (1/5))))
    ∧ (lifecycleOutputs (79/100) 8 pointiness pdir vol pn).visiblePetals = 0 := by
  constructor
  · unfold lifecycleOutputs
    rw [if_neg (by push_neg; linarith), if_neg (by push_neg; linarith), if_pos h2]
  · unfold lifecycleOutputs
    rw [if_neg (by norm_num), if_neg (by norm_num), if_pos (by norm_num)]
    show max 0 (cppRound ((8 : ℚ) * (1 - ((79:ℚ)/100 - 3/5) / (1/5)))) = 0
    norm_num [cppRound]

/-- Witness for C1 at phase 0.70. -/
theorem losing_petals_visible_count_w :
    ((3:ℚ)/5 ≤ 7/10 ∧ (7:ℚ)/10 < 4/5) ∧
    ((lifecycleOutputs (7/10) 8 0 0 0 0).visiblePetals
        = max 0 (cppRound ((8 : ℚ) * (1 - ((7/10 : ℚ) - 3/5) / (1/5))))
      ∧ (lifecycleOutputs (79/100) 8 0 0 0 0).visiblePetals = 0) :=
  ⟨by norm_num,
   losing_petals_visible_count 8 0 0 0 0 (7/10) (by norm_num) (by norm_num)⟩

/-- C6: setting parameters once and then drawing twice rebuilds the
cached petal outline only on the first draw and yields identical outlines
on both draws. -/
theorem geometry_cache_round_trip (s : Inflorescence) (p : InflorescenceParams) :
    ((Inflorescence.setParams s p).draw).rebuilt = true
    ∧ (((Inflorescence.setParams s p).draw).state.draw).rebuilt = false
    ∧ (((Inflorescence.setParams s p).draw).state.draw).outlines
        = ((Inflorescence.setParams s p).draw).outlines := by
  simp [Inflorescence.setParams, Inflorescence.draw]

/-- C8: every head-topology draw routine emits no petal geometry when the
petal count is zero or negative. -/
theorem degenerate_head_draw_noop (p : InflorescenceParams) (ops : FloatOps)
    (signedNoise : ℚ → ℚ → ℚ) (time : ℚ) (numPaths : ℕ) (h : p.petal.count ≤ 0) :
    Inflorescence.drawRadial p signedNoise time = []
    ∧ Inflorescence.drawPhyllotaxis p ops signedNoise time = []
    ∧ Inflorescence.drawRoseCurve p ops signedNoise time = []
    ∧ Inflorescence.drawSuperformula p ops signedNoise time = []
    ∧ Inflorescence.drawLayeredWhorls p numPaths signedNoise time = [] := by
  refine ⟨?_, ?_, ?_, ?_, ?_⟩
  · unfold Inflorescence.drawRadial; rw [if_pos h]
  · unfold Inflorescence.drawPhyllotaxis; rw [if_pos h]
  · unfold Inflorescence.drawRoseCurve; rw [if_pos h]
  · unfold Inflorescence.drawSuperformula; rw [if_pos h]
  · unfold Inflorescence.drawLayeredWhorls; rw [if_pos h]

/-- Witness for C8 at a zero petal count. -/
theorem degenerate_head_draw_noop_w :
    degenerateParams.petal.count ≤ 0 ∧
    (Inflorescence.drawRadial degenerateParams (fun _ _ => 0) 0 = []
     ∧ Inflorescence.drawPhyllotaxis degenerateParams trivialOps (fun _ _ => 0) 0 = []
     ∧ Inflorescence.drawRoseCurve degenerateParams trivialOps (fun _ _ => 0) 0 = []
     ∧ Inflorescence.drawSuperformula degenerateParams trivialOps (fun _ _ => 0) 0 = []
     ∧ Inflorescence.drawLayeredWhorls degenerateParams 3 (fun _ _ => 0) 0 = []) :=
  ⟨by decide,
   degenerate_head_draw_noop degenerateParams trivialOps (fun _ _ => 0) 0 3 (by decide)⟩

/-- C9: when the slow baseline volume of this tick is at or below 0.01
the volume ratio is treated as 0 and no beat fires, however large the
smoothed volume is. -/
theorem silent_baseline_no_beat (s : BeatState) (vol dt : ℚ)
    (h : s.slowVolume * (1 - 1/50) + vol * (1/50) ≤ 1/100) :
    (beatStep s vol dt).2 = false := by
  have h2 : ¬ (s.slowVolume * (1 - 1/50) + vol * (1/50) > 1/100) := not_lt.mpr h
  simp only [beatStep, beatFires, beatVolumeQuotient]
  have h3 : (if s.slowVolume * (1 - 1/50) + vol * (1/50) > 1/100
      then vol / (s.slowVolume * (1 - 1/50) + vol * (1/50)) else 0) = 0 := if_neg h2
  have h4 : decide ((if s.slowVolume * (1 - 1/50) + vol * (1/50) > 1/100
      then vol / (s.slowVolume * (1 - 1/50) + vol * (1/50)) else 0) > 7/5) = false := by
    apply decide_eq_false
    rw [h3]
    norm_num
  rw [h4, Bool.and_false]

/-- Witness for C9: a loud frame over a silent baseline. -/
theorem silent_baseline_no_beat_w :
    ((0:ℚ) * (1 - 1/50) + (2/5) * (1/50) ≤ 1/100) ∧
    (beatStep { slowVolume := 0, beatCooldown := 0, elapsedTime := 0,
                beatHistory := [] } (2/5) (1/100)).2 = false :=
  ⟨by norm_num, silent_baseline_no_beat _ (2/5) (1/100) (by norm_num)⟩

/-- Timestamps remaining after the purge are at most 5 seconds old,
provided the history is chronologically ordered. -/
theorem purgeBeatHistory_recent (e : ℚ) :
    ∀ (l : List ℚ), l.Sorted (fun a b => a ≤ b) →
      ∀ t ∈ purgeBeatHistory e l, e - t ≤ 5
  | [], _, t, ht => by simp [purgeBeatHistory] at ht
  | a :: l, h, t, ht => by
    rw [List.sorted_cons] at h
    unfold purgeBeatHistory at ht
    by_cases hc : e - a > 5
    · rw [List.dropWhile_cons_of_pos (by simpa using hc)] at ht
      exact purgeBeatHistory_recent e l h.2 t ht
    · rw [List.dropWhile_cons_of_neg (by simpa using hc)] at ht
      rcases List.mem_cons.mp ht with h1 | h1
      · subst h1; linarith [not_lt.mp hc]
      · have := h.1 t h1
        linarith [not_lt.mp hc]

/-- While the cooldown stays positive through a run of ticks with
nonnegative frame times, no beat fires. -/
theorem beatRun_no_fire :
    ∀ (ticks : List (ℚ × ℚ)) (s : BeatState),
      (∀ q ∈ ticks, 0 ≤ q.2) →
      0 < s.beatCooldown - (ticks.map Prod.snd).sum →
      (beatRun s ticks).2 = false
  | [], _, _, _ => rfl
  | (v, d) :: rest, s, hpos, hcd => by
    have hd : 0 ≤ d := hpos (v, d) (List.mem_cons_self _ _)
    have hrest : 0 ≤ (rest.map Prod.snd).sum :=
      List.sum_nonneg (by
        intro x hx
        rcases List.mem_map.mp hx with ⟨q, hq, rfl⟩
        exact hpos q (List.mem_cons_of_mem _ hq))
    rw [List.map_cons, List.sum_cons] at hcd
    have hcdpos : 0 < s.beatCooldown - d := by linarith
    have hfireB : beatFires (s.slowVolume * (1 - 1/50) + v * (1/50)) v
        (s.beatCooldown - d) = false := by
      unfold beatFires
      rw [decide_eq_false (show ¬ (s.beatCooldown - d ≤ 0) by linarith),
        Bool.false_and, Bool.false_and]
    have hfire : (beatStep s v d).2 = false := hfireB
    have hstate : (beatStep s v d).1.beatCooldown = s.beatCooldown - d := by
      show (if beatFires (s.slowVolume * (1 - 1/50) + v * (1/50)) v (s.beatCooldown - d)
          then (1:ℚ)/4 else s.beatCooldown - d) = s.beatCooldown - d
      rw [hfireB]
      simp
    have hrec := beatRun_no_fire rest (beatStep s v d).1
      (fun q hq => hpos q (List.mem_cons_of_mem _ hq))
      (by rw [hstate]; linarith)
    show ((beatStep s v d).2 || (beatRun (beatStep s v d).1 rest).2) = false
    rw [hfire, hrec, Bool.or_false]

/-- Characterization of the firing condition of the beat detector. -/
theorem beatFires_eq_true (slow vol cd : ℚ) :
    beatFires slow vol cd = true ↔
      (cd ≤ 0 ∧ vol > 1/20 ∧ slow > 1/100 ∧ vol / slow > 7/5) := by
  unfold beatFires beatVolumeQuotient
  rw [Bool.and_eq_true, Bool.and_eq_true, decide_eq_true_eq, decide_eq_true_eq,
    decide_eq_true_eq]
  constructor
  · rintro ⟨⟨h1, h2⟩, h3⟩
    by_cases hq : slow > 1/100
    · rw [if_pos hq] at h3
      exact ⟨h1, h2, hq, h3⟩
    · rw [if_neg hq] at h3
      norm_num at h3
  · rintro ⟨h1, h2, h3, h4⟩
    rw [if_pos h3]
    exact ⟨⟨h1, h2⟩, h4⟩

/-- The complementary characterization of a non-firing tick. -/
theorem beatFires_eq_false (slow vol cd : ℚ) :
    beatFires slow vol cd = false ↔
      ¬(cd ≤ 0 ∧ vol > 1/20 ∧ slow > 1/100 ∧ vol / slow > 7/5) := by
  rw [← beatFires_eq_true]
  cases h : beatFires slow vol cd <;> simp [h]

/-- C3 counterexample: a tick whose cooldown is expired, whose smoothed
volume exceeds 0.05 and whose volume ratio exceeds 1.4 (both against the
pre-tick and the post-EMA slow baseline), yet no beat fires, because the
slow baseline is at or below 0.01. -/
theorem beat_fire_condition_cex :
    quietBeat.beatCooldown ≤ 0 ∧ (1:ℚ)/10 > 1/20 ∧
    (1:ℚ)/10 / quietBeat.slowVolume > 7/5 ∧
    ((1:ℚ)/10) / (quietBeat.slowVolume * (1 - 1/50) + (1/10) * (1/50)) > 7/5 ∧
    (beatStep quietBeat (1/10) (1/100)).2 = false := by
  refine ⟨le_refl 0, by norm_num, by norm_num [quietBeat], by norm_num [quietBeat], ?_⟩
  show beatFires (quietBeat.slowVolume * (1 - 1/50) + (1/10) * (1/50)) (1/10)
    (quietBeat.beatCooldown - 1/100) = false
  rw [beatFires_eq_false]
  intro hcon
  have h3 := hcon.2.2.1
  norm_num [quietBeat] at h3

/-- C3 (amended): a beat fires exactly when the decremented cooldown is
at most 0, smoothedVolume exceeds 0.05, the updated slow baseline
exceeds 0.01, and the volume ratio exceeds 1.4; firing sets the cooldown
to 0.25 s and records the tick timestamp; after a beat no further beat
fires while less than 0.25 s of frame time has accumulated, whatever the
volume does; and all surviving history timestamps are at most 5 s old. -/
theorem beat_fire_amended (s : BeatState) (vol dt : ℚ)
    (hsorted : s.beatHistory.Sorted (fun a b => a ≤ b))
    (hpast : ∀ t ∈ s.beatHistory, t ≤ s.elapsedTime) :
    ((beatStep s vol dt).2 = true ↔
      (s.beatCooldown - dt ≤ 0 ∧ vol > 1/20 ∧
       s.slowVolume * (1 - 1/50) + vol * (1/50) > 1/100 ∧
       vol / (s.slowVolume * (1 - 1/50) + vol * (1/50)) > 7/5))
    ∧ ((beatStep s vol dt).2 = true →
        (beatStep s vol dt).1.beatCooldown = 1/4 ∧
        (beatStep s vol dt).1.beatHistory
          = purgeBeatHistory (s.elapsedTime + dt)
              (s.beatHistory ++ [s.elapsedTime + dt]))
    ∧ (0 ≤ dt → (beatStep s vol dt).2 = true →
        ∀ t ∈ (beatStep s vol dt).1.beatHistory,
          (beatStep s vol dt).1.elapsedTime - t ≤ 5)
    ∧ (∀ ticks : List (ℚ × ℚ), (∀ q ∈ ticks, 0 ≤ q.2) →
        (beatStep s vol dt).2 = true → (ticks.map Prod.snd).sum < 1/4 →
        (beatRun (beatStep s vol dt).1 ticks).2 = false) := by
  have hcool : (beatStep s vol dt).2 = true →
      (beatStep s vol dt).1.beatCooldown = 1/4 := by
    intro hf
    have hfB : beatFires (s.slowVolume * (1 - 1/50) + vol * (1/50)) vol
        (s.beatCooldown - dt) = true := hf
    show (if beatFires (s.slowVolume * (1 - 1/50) + vol * (1/50)) vol
        (s.beatCooldown - dt) then (1:ℚ)/4 else s.beatCooldown - dt) = 1/4
    rw [hfB]
    simp
  have hhist : (beatStep s vol dt).2 = true →
      (beatStep s vol dt).1.beatHistory
        = purgeBeatHistory (s.elapsedTime + dt)
            (s.beatHistory ++ [s.elapsedTime + dt]) := by
    intro hf
    have hfB : beatFires (s.slowVolume * (1 - 1/50) + vol * (1/50)) vol
        (s.beatCooldown - dt) = true := hf
    show purgeBeatHistory (s.elapsedTime + dt)
        (if beatFires (s.slowVolume * (1 - 1/50) + vol * (1/50)) vol
            (s.beatCooldown - dt)
         then s.beatHistory ++ [s.elapsedTime + dt] else s.beatHistory)
      = purgeBeatHistory (s.elapsedTime + dt) (s.beatHistory ++ [s.elapsedTime + dt])
    rw [hfB]
    simp
  refine ⟨?_, fun hf => ⟨hcool hf, hhist hf⟩, ?_, ?_⟩
  · show beatFires (s.slowVolume * (1 - 1/50) + vol * (1/50)) vol
        (s.beatCooldown - dt) = true ↔ _
    exact beatFires_eq_true _ _ _
  · intro hdt hf t ht
    rw [hhist hf] at ht
    have hsorted2 : (s.beatHistory ++ [s.elapsedTime + dt]).Sorted (fun a b => a ≤ b) := by
      show List.Pairwise _ _
      apply List.pairwise_append.mpr
      refine ⟨hsorted, List.pairwise_singleton _ _, ?_⟩
      intro a ha b hb
      rw [List.mem_singleton] at hb
      subst hb
      have := hpast a ha
      linarith
    have helapsed : (beatStep s vol dt).1.elapsedTime = s.elapsedTime + dt := rfl
    rw [helapsed]
    exact purgeBeatHistory_recent (s.elapsedTime + dt) _ hsorted2 t ht
  · intro ticks hpos hf hsum
    apply beatRun_no_fire ticks _ hpos
    rw [hcool hf]
    linarith

/-- Witness for C3 (amended): a clean step over a settled baseline fires,
resets the cooldown and refuses to fire again 0.1 s later. -/
theorem beat_fire_amended_w :
    (settledBeat.beatHistory.Sorted (fun a b => a ≤ b) ∧
     (∀ t ∈ settledBeat.beatHistory, t ≤ settledBeat.elapsedTime)) ∧
    ((beatStep settledBeat (1/10) (1/100)).2 = true ↔
      (settledBeat.beatCooldown - 1/100 ≤ 0 ∧ (1:ℚ)/10 > 1/20 ∧
       settledBeat.slowVolume * (1 - 1/50) + (1/10) * (1/50) > 1/100 ∧
       ((1:ℚ)/10) / (settledBeat.slowVolume * (1 - 1/50) + (1/10) * (1/50)) > 7/5)) := by
  constructor
  · exact ⟨List.sorted_nil, by intro t ht; simp [settledBeat] at ht⟩
  · exact (beat_fire_amended settledBeat (1/10) (1/100) List.sorted_nil
      (by intro t ht; simp [settledBeat] at ht)).1

/-- A dead petal is left untouched by the step. -/
theorem stepPetal_dead (cfg : FallingPetalConfig) (height dt : ℚ) (fp : FallingPetal)
    (hd : fp.alive = false) :
    FallingPetalSystem.stepPetal cfg height dt fp = fp := by
  unfold FallingPetalSystem.stepPetal
  rw [if_pos hd]

/-- A dead petal stays untouched through any number of steps. -/
theorem foldl_stepPetal_dead (cfg : FallingPetalConfig) (height : ℚ) :
    ∀ (dts : List ℚ) (fp : FallingPetal), fp.alive = false →
      dts.foldl (fun a d => FallingPetalSystem.stepPetal cfg height d a) fp = fp
  | [], _, _ => rfl
  | d :: dts, fp, hd => by
    rw [List.foldl_cons, stepPetal_dead cfg height d fp hd,
      foldl_stepPetal_dead cfg height dts fp hd]

/-- A step that leaves the petal alive integrated gravity into the
vertical velocity. -/
theorem stepPetal_alive_velocity (cfg : FallingPetalConfig) (height dt : ℚ)
    (fp : FallingPetal) (ha : fp.alive = true)
    (ha2 : (FallingPetalSystem.stepPetal cfg height dt fp).alive = true) :
    (FallingPetalSystem.stepPetal cfg height dt fp).velocityY
      = fp.velocityY + cfg.gravity * dt := by
  unfold FallingPetalSystem.stepPetal at ha2 ⊢
  rw [if_neg (by simp [ha])] at ha2 ⊢
  dsimp only at ha2 ⊢
  by_cases h1 : fp.age + dt > cfg.maxLifetime ∨ fp.basePositionY > height + 50
  · rw [if_pos h1] at ha2
    simp at ha2
  · rw [if_neg h1] at ha2 ⊢
    by_cases h2 : fp.age + dt > cfg.fadeDelay
    · rw [if_pos h2] at ha2 ⊢
      by_cases h3 : (if fp.alpha - cfg.fadeSpeed * dt < 0 then (0:ℚ)
          else fp.alpha - cfg.fadeSpeed * dt) ≤ 0
      · rw [if_pos h3] at ha2
        simp at ha2
      · rw [if_neg h3]
    · rw [if_neg h2] at ha2 ⊢
      by_cases h3 : fp.alpha ≤ 0
      · rw [if_pos h3] at ha2
        simp at ha2
      · rw [if_neg h3]

/-- Through a run of steps that leaves the petal alive, the vertical
velocity is the initial one plus gravity integrated over the run. -/
theorem foldl_stepPetal_velocity (cfg : FallingPetalConfig) (height : ℚ) :
    ∀ (dts : List ℚ) (fp : FallingPetal), fp.alive = true →
      (dts.foldl (fun a d => FallingPetalSystem.stepPetal cfg height d a) fp).alive = true →
      (dts.foldl (fun a d => FallingPetalSystem.stepPetal cfg height d a) fp).velocityY
        = fp.velocityY + cfg.gravity * dts.sum
  | [], fp, _, _ => by simp
  | d :: dts, fp, ha, hend => by
    rw [List.foldl_cons] at hend ⊢
    have h1 : (FallingPetalSystem.stepPetal cfg height d fp).alive = true := by
      by_contra hcon
      rw [foldl_stepPetal_dead cfg height dts _ (Bool.eq_false_iff.mpr hcon)] at hend
      exact hcon hend
    rw [foldl_stepPetal_velocity cfg height dts _ h1 hend,
      stepPetal_alive_velocity cfg height d fp ha h1, List.sum_cons]
    ring

/-- Any petal alive after a run of FallingPetalSystem::update calls is
the fold of the per-petal step over some petal of the initial system. -/
theorem mem_updates (cfg : FallingPetalConfig) (height : ℚ) :
    ∀ (dts : List ℚ) (ps : List FallingPetal) (fp2 : FallingPetal),
      fp2 ∈ FallingPetalSystem.updates cfg height dts ps →
      ∃ fp ∈ ps,
        fp2 = dts.foldl (fun a d => FallingPetalSystem.stepPetal cfg height d a) fp
        ∧ (dts = [] ∨ fp2.alive = true)
  | [], ps, fp2, h => ⟨fp2, h, rfl, Or.inl rfl⟩
  | d :: dts, ps, fp2, h => by
    have h1 : fp2 ∈ FallingPetalSystem.updates cfg height dts
        (FallingPetalSystem.update cfg height d ps) := h
    obtain ⟨fp1, hfp1, heq, hal⟩ := mem_updates cfg height dts _ fp2 h1
    unfold FallingPetalSystem.update at hfp1
    rw [List.mem_filter] at hfp1
    obtain ⟨hmem, halive1⟩ := hfp1
    rcases List.mem_map.mp hmem with ⟨fp, hfp, rfl⟩
    refine ⟨fp, hfp, by rw [List.foldl_cons]; exact heq, Or.inr ?_⟩
    rcases hal with hnil | hok
    · subst hnil
      simpa [heq] using halive1
    · exact hok

/-- Every petal surviving one FallingPetalSystem::update has age at most
maxLifetime. -/
theorem update_age_le (cfg : FallingPetalConfig) (height dt : ℚ) (ps : List FallingPetal) :
    ∀ fp2 ∈ FallingPetalSystem.update cfg height dt ps, fp2.age ≤ cfg.maxLifetime := by
  intro fp2 h
  unfold FallingPetalSystem.update at h
  rw [List.mem_filter] at h
  obtain ⟨hmem, halive⟩ := h
  rcases List.mem_map.mp hmem with ⟨fp, _, rfl⟩
  unfold FallingPetalSystem.stepPetal at halive ⊢
  by_cases h0 : fp.alive = false
  · rw [if_pos h0] at halive ⊢
    rw [h0] at halive
    exact absurd halive (by simp)
  · rw [if_neg h0] at halive ⊢
    dsimp only at halive ⊢
    by_cases h1 : fp.age + dt > cfg.maxLifetime ∨ fp.basePositionY > height + 50
    · rw [if_pos h1] at halive
      simp at halive
    · rw [if_neg h1] at halive ⊢
      push_neg at h1
      by_cases h2 : fp.age + dt > cfg.fadeDelay
      · rw [if_pos h2] at halive ⊢
        by_cases h3 : (if fp.alpha - cfg.fadeSpeed * dt < 0 then (0:ℚ)
            else fp.alpha - cfg.fadeSpeed * dt) ≤ 0
        · rw [if_pos h3] at halive
          simp at halive
        · rw [if_neg h3]
          exact h1.1
      · rw [if_neg h2] at halive ⊢
        by_cases h3 : fp.alpha ≤ 0
        · rw [if_pos h3] at halive
          simp at halive
        · rw [if_neg h3]
          exact h1.1

/-- C5: a petal spawned with gravity 50 and initialUpPop 10 that is
still falling after updates totalling one second of simulated time has
vertical velocity exactly -10 + 50 = 40 px/s; and every petal whose age
exceeds maxLifetime = 4 s is deactivated and purged by the next update,
regardless of its position: after any update every surviving petal has
age at most 4. -/
theorem falling_petal_gravity_and_lifetime (cfg : FallingPetalConfig)
    (hg : cfg.gravity = 50) (hu : cfg.initialUpPop = 10) (hm : cfg.maxLifetime = 4) :
    (∀ (ops : FloatOps) (d : SpawnDraw) (hx hy ang len height : ℚ) (dts : List ℚ),
       dts.sum = 1 →
       ∀ fp2 ∈ FallingPetalSystem.updates cfg height dts
           [FallingPetalSystem.spawn cfg ops d hx hy ang len],
         fp2.velocityY = 40)
    ∧ (∀ (height dt : ℚ) (ps : List FallingPetal),
        ∀ fp2 ∈ FallingPetalSystem.update cfg height dt ps, fp2.age ≤ 4) := by
  constructor
  · intro ops d hx hy ang len height dts hsum fp2 hmem
    obtain ⟨fp, hfp, heq, hal⟩ := mem_updates cfg height dts _ fp2 hmem
    rw [List.mem_singleton] at hfp
    subst hfp
    rcases hal with hnil | hok
    · subst hnil
      simp at hsum
    · have hspawn : (FallingPetalSystem.spawn cfg ops d hx hy ang len).alive = true := rfl
      have hvel0 : (FallingPetalSystem.spawn cfg ops d hx hy ang len).velocityY
          = -cfg.initialUpPop := rfl
      rw [heq] at hok ⊢
      rw [foldl_stepPetal_velocity cfg height dts _ hspawn hok, hvel0, hg, hu, hsum]
      norm_num
  · intro height dt ps fp2 hmem
    have := update_age_le cfg height dt ps fp2 hmem
    rwa [hm] at this

/-- Witness for C5 with the default configuration over two half-second
ticks. -/
theorem falling_petal_gravity_and_lifetime_w :
    (defaultFallingPetalConfig.gravity = 50 ∧
     defaultFallingPetalConfig.initialUpPop = 10 ∧
     defaultFallingPetalConfig.maxLifetime = 4) ∧
    (∀ fp2 ∈ FallingPetalSystem.updates defaultFallingPetalConfig 1000 [1/2, 1/2]
        [FallingPetalSystem.spawn defaultFallingPetalConfig trivialOps
          { tumbleMult := 1, tumbleSign := 1, waverPhase := 0, waverAmpMult := 1,
            waverFreqMult := 1 } 100 100 0 60],
       fp2.velocityY = 40) := by
  refine ⟨⟨rfl, rfl, rfl⟩, ?_⟩
  exact (falling_petal_gravity_and_lifetime defaultFallingPetalConfig rfl rfl rfl).1
    trivialOps _ 100 100 0 60 1000 [1/2, 1/2] (by norm_num)

theorem markEvolve_trans {a b c : FlowerInstance}
    (h1 : markEvolve a b) (h2 : markEvolve b c) : markEvolve a c := by
  rcases h1 with rfl | ⟨hf, hl, hh, rfl⟩
  · exact h2
  · rcases h2 with rfl | ⟨hf2, h2a, h2b, h2c⟩
    · exact Or.inr ⟨hf, hl, hh, rfl⟩
    · simp at hf2

/-- One retry pass of the shrink loop changes each slot by at most a
legitimate marking. -/
theorem tryMarkOne_evolve (pick : ℕ → ℕ) :
    ∀ (fuel : ℕ) (l : List FlowerInstance) (i : ℕ) (c c2 : FlowerInstance),
      l[i]? = some c → (FlowerField.tryMarkOne pick fuel l)[i]? = some c2 →
      markEvolve c c2
  | 0, l, i, c, c2, h1, h2 => by
    have h2a : l[i]? = some c2 := h2
    rw [h1] at h2a
    exact Or.inl (Option.some.inj h2a).symm
  | Nat.succ n, l, i, c, c2, h1, h2 => by
    simp only [FlowerField.tryMarkOne] at h2
    cases hl : l[pick (markAttempts - Nat.succ n) % l.length]? with
    | none =>
      rw [hl] at h2
      exact tryMarkOne_evolve pick n l i c c2 h1 h2
    | some cand =>
      rw [hl] at h2
      dsimp only at h2
      by_cases he : cand.fastDeath = false ∧ cand.lifePhase > 3/20 ∧ cand.lifePhase < 4/5
      · rw [if_pos he] at h2
        by_cases hii : pick (markAttempts - Nat.succ n) % l.length = i
        · rw [hii] at h2 hl
          have hlen : i < l.length := (List.getElem?_eq_some_iff.mp h1).1
          rw [List.getElem?_set_self hlen] at h2
          have hcand : cand = c := by
            rw [h1] at hl
            exact (Option.some.inj hl).symm
          subst hcand
          exact Or.inr ⟨he.1, he.2.1, he.2.2, (Option.some.inj h2).symm⟩
        · rw [List.getElem?_set_ne hii] at h2
          rw [h1] at h2
          exact Or.inl (Option.some.inj h2).symm
      · rw [if_neg he] at h2
        exact tryMarkOne_evolve pick n l i c c2 h1 h2

theorem length_tryMarkOne (pick : ℕ → ℕ) :
    ∀ (fuel : ℕ) (l : List FlowerInstance),
      (FlowerField.tryMarkOne pick fuel l).length = l.length
  | 0, _ => rfl
  | Nat.succ n, l => by
    simp only [FlowerField.tryMarkOne]
    cases hl : l[pick (markAttempts - Nat.succ n) % l.length]? with
    | none => exact length_tryMarkOne pick n l
    | some cand =>
      dsimp only
      by_cases he : cand.fastDeath = false ∧ cand.lifePhase > 3/20 ∧ cand.lifePhase < 4/5
      · rw [if_pos he, List.length_set]
      · rw [if_neg he]
        exact length_tryMarkOne pick n l

theorem length_markLoop (picks : ℕ → ℕ → ℕ) :
    ∀ (n i : ℕ) (l : List FlowerInstance),
      (FlowerField.markLoop picks i n l).length = l.length
  | 0, _, _ => rfl
  | Nat.succ n, i, l => by
    simp only [FlowerField.markLoop]
    rw [length_markLoop picks n (i + 1) _, length_tryMarkOne]

/-- The whole shrink loop changes each slot by at most a legitimate
marking. -/
theorem markLoop_evolve (picks : ℕ → ℕ → ℕ) :
    ∀ (n i0 : ℕ) (l : List FlowerInstance) (i : ℕ) (c c2 : FlowerInstance),
      l[i]? = some c → (FlowerField.markLoop picks i0 n l)[i]? = some c2 →
      markEvolve c c2
  | 0, i0, l, i, c, c2, h1, h2 => by
    have h2a : l[i]? = some c2 := h2
    rw [h1] at h2a
    exact Or.inl (Option.some.inj h2a).symm
  | Nat.succ n, i0, l, i, c, c2, h1, h2 => by
    have hlen : i < l.length := (List.getElem?_eq_some_iff.mp h1).1
    have hlen2 : i < (FlowerField.tryMarkOne (picks i0) markAttempts l).length := by
      rw [length_tryMarkOne]
      exact hlen
    have hc1 := List.getElem?_eq_getElem hlen2
    exact markEvolve_trans
      (tryMarkOne_evolve (picks i0) markAttempts l i c _ h1 hc1)
      (markLoop_evolve picks n (i0 + 1) _ i _ c2 hc1 h2)

theorem ofClamp_eq_self {x : ℚ} (h0 : 0 ≤ x) (h1 : x ≤ 1) : ofClamp x 0 1 = x := by
  unfold ofClamp
  rw [min_eq_left h1, max_eq_right h0]

/-- Behaviour of the per-instance step on an instance already in fast
death whose advanced phase stays below 1. -/
theorem stepInstance_fastDeath (fi : FlowerInstance) (dt speed vol pn : ℚ)
    (size target : ℤ) (d : RespawnDraw)
    (hfd : fi.fastDeath = true) (hdt : 0 ≤ dt) (ht0 : 0 ≤ fi.fastDeathTimer)
    (hph : fi.lifePhase + speed * fi.lifeSpeedMult * dt < 1) :
    (fi.fastDeathTimer + dt * (3/2) < 1 →
      ((FlowerField.stepInstance fi dt speed vol pn size target d).1.lastVisiblePetals = 0
       ∧ (FlowerField.stepInstance fi dt speed vol pn size target d).1.currentAlpha
           = 1 - (fi.fastDeathTimer + dt * (3/2)) * (fi.fastDeathTimer + dt * (3/2))
       ∧ (FlowerField.stepInstance fi dt speed vol pn size target d).1.fastDeath = true))
    ∧ (1 ≤ fi.fastDeathTimer + dt * (3/2) →
        ((FlowerField.stepInstance fi dt speed vol pn size target d).1.currentAlpha = 0
         ∧ (FlowerField.stepInstance fi dt speed vol pn size target d).1.lifePhase = 999)) := by
  have hc1 : ¬ (fi.lifePhase + speed * fi.lifeSpeedMult * dt ≥ 1 ∧ size > target) := by
    intro hcon
    have := hcon.1
    linarith
  have hc2 : ¬ (fi.lifePhase + speed * fi.lifeSpeedMult * dt ≥ 1) := not_le.mpr hph
  unfold FlowerField.stepInstance
  rw [if_neg hc1, if_neg hc2]
  dsimp only
  rw [hfd]
  rw [if_pos rfl]
  constructor
  · intro hlt
    rw [if_neg (not_le.mpr hlt)]
    dsimp only
    refine ⟨rfl, ?_, rfl⟩
    have hfd0 : 0 ≤ fi.fastDeathTimer + dt * (3/2) := by linarith
    have hb0 : 0 ≤ 1 - (fi.fastDeathTimer + dt * (3/2)) * (fi.fastDeathTimer + dt * (3/2)) := by
      nlinarith
    have hb1 : 1 - (fi.fastDeathTimer + dt * (3/2)) * (fi.fastDeathTimer + dt * (3/2)) ≤ 1 := by
      nlinarith
    exact ofClamp_eq_self hb0 hb1
  · intro hge
    rw [if_pos hge]
    exact ⟨rfl, rfl⟩

/-- C4: fast death is only ever triggered on instances that are not
already dying and whose lifePhase lies strictly between 0.15 and 0.80;
while fast death is active the stored visible petal count is 0 and the
alpha is 1 - fd^2 for fast-death progress fd < 1; and when fd reaches 1
the instance gets currentAlpha 0 and the removal-sentinel lifePhase. -/
theorem fast_death_rules :
    (∀ (picks : ℕ → ℕ → ℕ) (n i0 : ℕ) (l : List FlowerInstance) (i : ℕ)
       (c c2 : FlowerInstance),
       l[i]? = some c →
       (FlowerField.markLoop picks i0 n l)[i]? = some c2 →
       c2.fastDeath = true →
       c.fastDeath = true ∨
         (c.fastDeath = false ∧ 3/20 < c.lifePhase ∧ c.lifePhase < 4/5))
    ∧ (∀ (fi : FlowerInstance) (dt speed vol pn : ℚ) (size target : ℤ) (d : RespawnDraw),
        fi.fastDeath = true → 0 ≤ dt → 0 ≤ fi.fastDeathTimer →
        fi.lifePhase + speed * fi.lifeSpeedMult * dt < 1 →
        ((fi.fastDeathTimer + dt * (3/2) < 1 →
          ((FlowerField.stepInstance fi dt speed vol pn size target d).1.lastVisiblePetals = 0
           ∧ (FlowerField.stepInstance fi dt speed vol pn size target d).1.currentAlpha
               = 1 - (fi.fastDeathTimer + dt * (3/2)) * (fi.fastDeathTimer + dt * (3/2))
           ∧ (FlowerField.stepInstance fi dt speed vol pn size target d).1.fastDeath = true))
        ∧ (1 ≤ fi.fastDeathTimer + dt * (3/2) →
            ((FlowerField.stepInstance fi dt speed vol pn size target d).1.currentAlpha = 0
             ∧ (FlowerField.stepInstance fi dt speed vol pn size target d).1.lifePhase = 999)))) := by
  constructor
  · intro picks n i0 l i c c2 h1 h2 hfd2
    rcases markLoop_evolve picks n i0 l i c c2 h1 h2 with rfl | ⟨hf, hl, hh, _⟩
    · exact Or.inl hfd2
    · exact Or.inr ⟨hf, hl, hh⟩
  · intro fi dt speed vol pn size target d hfd hdt ht0 hph
    exact stepInstance_fastDeath fi dt speed vol pn size target d hfd hdt ht0 hph

/-- Witness for C4: one shrink pass marks the eligible mid-bloom
instance, and the step facts hold for a concrete dying instance. -/
theorem fast_death_rules_w :
    (([bloomInst][0]? = some bloomInst
      ∧ (FlowerField.markLoop (fun _ _ => 0) 0 1 [bloomInst])[0]? = some markedInst
      ∧ markedInst.fastDeath = true)
     ∧ (bloomInst.fastDeath = true ∨
         (bloomInst.fastDeath = false ∧ 3/20 < bloomInst.lifePhase
          ∧ bloomInst.lifePhase < 4/5)))
    ∧ ((dyingInst.fastDeath = true ∧ (0:ℚ) ≤ 1/10 ∧ (0:ℚ) ≤ dyingInst.fastDeathTimer
        ∧ dyingInst.lifePhase + 0 * dyingInst.lifeSpeedMult * (1/10) < 1)
       ∧ ((dyingInst.fastDeathTimer + (1/10) * (3/2) < 1 →
            ((FlowerField.stepInstance dyingInst (1/10) 0 0 0 1 1 constDraw).1.lastVisiblePetals = 0
             ∧ (FlowerField.stepInstance dyingInst (1/10) 0 0 0 1 1 constDraw).1.currentAlpha
                 = 1 - (dyingInst.fastDeathTimer + (1/10) * (3/2))
                     * (dyingInst.fastDeathTimer + (1/10) * (3/2))
             ∧ (FlowerField.stepInstance dyingInst (1/10) 0 0 0 1 1 constDraw).1.fastDeath = true))
          ∧ (1 ≤ dyingInst.fastDeathTimer + (1/10) * (3/2) →
              ((FlowerField.stepInstance dyingInst (1/10) 0 0 0 1 1 constDraw).1.currentAlpha = 0
               ∧ (FlowerField.stepInstance dyingInst (1/10) 0 0 0 1 1 constDraw).1.lifePhase = 999)))) := by
  have hget : [bloomInst][0]? = some bloomInst := rfl
  have hmark : (FlowerField.markLoop (fun _ _ => 0) 0 1 [bloomInst])[0]? = some markedInst := by
    show (FlowerField.markLoop (fun _ _ => 0) 1 0
        (FlowerField.tryMarkOne (fun _ => 0) markAttempts [bloomInst]))[0]? = some markedInst
    have h1 : FlowerField.tryMarkOne (fun _ => 0) markAttempts [bloomInst] = [markedInst] := by
      show (if bloomInst.fastDeath = false ∧ bloomInst.lifePhase > 3/20
            ∧ bloomInst.lifePhase < 4/5
          then [bloomInst].set 0 { bloomInst with fastDeath := true, fastDeathTimer := 0 }
          else FlowerField.tryMarkOne (fun _ => 0) 4 [bloomInst]) = [markedInst]
      rw [if_pos (by refine ⟨rfl, ?_, ?_⟩ <;> norm_num [bloomInst])]
      rfl
    rw [h1]
    rfl
  refine ⟨⟨⟨hget, hmark, rfl⟩, ?_⟩, ⟨?_, ?_⟩⟩
  · exact (fast_death_rules.1 (fun _ _ => 0) 1 0 [bloomInst] 0 bloomInst markedInst
      hget hmark rfl)
  · refine ⟨rfl, by norm_num, le_refl 0, ?_⟩
    norm_num [dyingInst, bloomInst]
  · exact (fast_death_rules.2 dyingInst (1/10) 0 0 0 1 1 constDraw rfl (by norm_num)
      (le_refl 0) (by norm_num [dyingInst, bloomInst]))

theorem countP_set_le (p : FlowerInstance → Bool) :
    ∀ (l : List FlowerInstance) (i : ℕ) (a : FlowerInstance),
      (l.set i a).countP p ≤ l.countP p + 1
  | [], _, _ => by simp
  | b :: t, 0, a => by
    simp only [List.set_cons_zero, List.countP_cons]
    split_ifs <;> omega
  | b :: t, i+1, a => by
    simp only [List.set_cons_succ, List.countP_cons]
    have := countP_set_le p t i a
    split_ifs <;> omega

theorem countFastDeath_tryMarkOne (pick : ℕ → ℕ) :
    ∀ (fuel : ℕ) (l : List FlowerInstance),
      countFastDeath (FlowerField.tryMarkOne pick fuel l) ≤ countFastDeath l + 1
  | 0, l => Nat.le_succ _
  | Nat.succ n, l => by
    simp only [FlowerField.tryMarkOne]
    cases hl : l[pick (markAttempts - Nat.succ n) % l.length]? with
    | none => exact countFastDeath_tryMarkOne pick n l
    | some cand =>
      dsimp only
      by_cases he : cand.fastDeath = false ∧ cand.lifePhase > 3/20 ∧ cand.lifePhase < 4/5
      · rw [if_pos he]
        exact countP_set_le _ l _ _
      · rw [if_neg he]
        exact countFastDeath_tryMarkOne pick n l

/-- At most n instances are newly marked by n passes of the shrink loop. -/
theorem countFastDeath_markLoop (picks : ℕ → ℕ → ℕ) :
    ∀ (n i : ℕ) (l : List FlowerInstance),
      countFastDeath (FlowerField.markLoop picks i n l) ≤ countFastDeath l + n
  | 0, _, _ => Nat.le_refl _
  | Nat.succ n, i, l => by
    simp only [FlowerField.markLoop]
    have h1 := countFastDeath_markLoop picks n (i + 1)
      (FlowerField.tryMarkOne (picks i) markAttempts l)
    have h2 := countFastDeath_tryMarkOne (picks i) markAttempts l
    omega

theorem length_popAdjust_le (insts : List FlowerInstance) (target : ℤ) (env : UpdateEnv) :
    (FlowerField.popAdjust insts target env).length ≤ insts.length + 10 := by
  unfold FlowerField.popAdjust
  dsimp only
  split_ifs with h1 h2
  · unfold FlowerField.growInstances
    rw [List.length_append, List.length_map, List.length_range]
    have h3 : (min (target - (insts.length:ℤ)) 10).toNat ≤ (10:ℤ).toNat :=
      Int.toNat_le_toNat (min_le_right _ _)
    omega
  · rw [length_markLoop]
    omega
  · omega

theorem length_popAdjust_bound (insts : List FlowerInstance) (target : ℤ) (env : UpdateEnv)
    (hl : insts.length ≤ 1500) (ht : target ≤ 1500) :
    (FlowerField.popAdjust insts target env).length ≤ 1500 := by
  unfold FlowerField.popAdjust
  dsimp only
  split_ifs with h1 h2
  · unfold FlowerField.growInstances
    rw [List.length_append, List.length_map, List.length_range]
    have h0 : (0:ℤ) ≤ min (target - (insts.length:ℤ)) 10 :=
      le_min (by omega) (by norm_num)
    have hle : min (target - (insts.length:ℤ)) 10 ≤ target - (insts.length:ℤ) :=
      min_le_left _ _
    omega
  · rw [length_markLoop]
    exact hl
  · exact hl

theorem finalize_length_le (l2 : List (FlowerInstance × Bool)) (b : Bool) :
    (if b then sortByY ((l2.map Prod.fst).filter (fun fi => decide (fi.lifePhase < 2)))
     else (l2.map Prod.fst).filter (fun fi => decide (fi.lifePhase < 2))).length
      ≤ l2.length := by
  have h1 : ((l2.map Prod.fst).filter (fun fi => decide (fi.lifePhase < 2))).length
      ≤ l2.length := by
    calc ((l2.map Prod.fst).filter (fun fi => decide (fi.lifePhase < 2))).length
        ≤ (l2.map Prod.fst).length := List.length_filter_le _ _
      _ = l2.length := List.length_map _ _
  cases b
  · simpa using h1
  · rw [if_pos rfl, sortByY, List.length_insertionSort]
    exact h1

/-- The instance count after one update is at most the count after the
population adjustment (the loop preserves it, erasure and sorting do not
grow it). -/
theorem update_length_le (s : FlowerField) (volume fullness dtRaw pn : ℚ) (env : UpdateEnv) :
    (FlowerField.update s volume fullness dtRaw pn env).state.instances.length
      ≤ (FlowerField.popAdjust s.instances
          (FlowerField.update s volume fullness dtRaw pn env).targetCount env).length := by
  unfold FlowerField.update
  dsimp only
  refine le_trans (finalize_length_le _ _) ?_
  rw [List.length_map, List.enum_length]

/-- In reactive mode the tick target is the int cast of
lerp(30, 1500, activityLevel). -/
theorem update_target (s : FlowerField) (volume fullness dtRaw pn : ℚ) (env : UpdateEnv)
    (hreact : s.reactiveMode = true) :
    (FlowerField.update s volume fullness dtRaw pn env).targetCount
      = cppToInt (ofLerp 30 1500
          (FlowerField.update s volume fullness dtRaw pn env).state.activityLevel) := by
  unfold FlowerField.update
  dsimp only
  rw [hreact]
  simp

theorem ema_bounds (old input alpha : ℚ) (h0 : 0 ≤ old) (h1 : old ≤ 1)
    (hi0 : 0 ≤ input) (hi1 : input ≤ 1) (ha0 : 0 ≤ alpha) (ha1 : alpha ≤ 1) :
    0 ≤ old * (1 - alpha) + input * alpha ∧ old * (1 - alpha) + input * alpha ≤ 1 := by
  constructor <;> nlinarith

theorem activityStep_bounds (act β v f : ℚ) (ha0 : 0 ≤ act) (ha1 : act ≤ 1)
    (hb0 : 0 ≤ β) (hb1 : β ≤ 1) (hv0 : 0 ≤ v) (hv1 : v ≤ 1) (hf0 : 0 ≤ f) (hf1 : f ≤ 1) :
    0 ≤ act * (1 - 3/100) + ((1/2) * β + (3/10) * v + (1/5) * f) * (3/100)
    ∧ act * (1 - 3/100) + ((1/2) * β + (3/10) * v + (1/5) * f) * (3/100) ≤ 1 := by
  constructor <;> nlinarith

/-- The activity level stays in [0, 1] across one update when the stored
smoothers are in range and the fullness input is in [0, 1]. -/
theorem update_activity_bound (s : FlowerField) (volume fullness dtRaw pn : ℚ)
    (env : UpdateEnv)
    (ha0 : 0 ≤ s.activityLevel) (ha1 : s.activityLevel ≤ 1)
    (hv0 : 0 ≤ s.smoothedVolume) (hv1 : s.smoothedVolume ≤ 1)
    (hf0 : 0 ≤ s.smoothedFullness) (hf1 : s.smoothedFullness ≤ 1)
    (hin0 : 0 ≤ fullness) (hin1 : fullness ≤ 1) :
    0 ≤ (FlowerField.update s volume fullness dtRaw pn env).state.activityLevel
    ∧ (FlowerField.update s volume fullness dtRaw pn env).state.activityLevel ≤ 1 := by
  unfold FlowerField.update
  dsimp only
  have hv := ema_bounds s.smoothedVolume (ofClamp (volume * 5) 0 1) (2/25) hv0 hv1
    (le_ofClamp _ _ _) (ofClamp_le (by norm_num)) (by norm_num) (by norm_num)
  have hf := ema_bounds s.smoothedFullness fullness (1/10) hf0 hf1 hin0 hin1
    (by norm_num) (by norm_num)
  exact activityStep_bounds _ _ _ _ ha0 ha1 (le_ofClamp _ _ _)
    (ofClamp_le (by norm_num)) hv.1 hv.2 hf.1 hf.2

theorem cppToInt_lerp_le (a : ℚ) (h0 : 0 ≤ a) (h1 : a ≤ 1) :
    cppToInt (ofLerp 30 1500 a) ≤ 1500 := by
  unfold cppToInt ofLerp
  rw [if_pos (by nlinarith)]
  have hle : (30 : ℚ) + (1500 - 30) * a ≤ 1500 := by nlinarith
  calc ⌊(30:ℚ) + (1500 - 30) * a⌋ ≤ ⌊(1500:ℚ)⌋ := Int.floor_le_floor hle
    _ = 1500 := by norm_num

/-- C2: in reactive mode the population target of a tick is the int cast
of lerp(30, 1500, activityLevel); at most 10 instances are spawned in one
tick; at most 5 instances are newly marked for fast death in one tick;
and from any population not above 1500 the instance count stays at or
below 1500 (the stored smoothers and the fullness input lie in [0, 1], as
the external interface guarantees). -/
theorem reactive_population_bound (s : FlowerField) (volume fullness dtRaw pn : ℚ)
    (env : UpdateEnv)
    (hreact : s.reactiveMode = true)
    (ha0 : 0 ≤ s.activityLevel) (ha1 : s.activityLevel ≤ 1)
    (hv0 : 0 ≤ s.smoothedVolume) (hv1 : s.smoothedVolume ≤ 1)
    (hf0 : 0 ≤ s.smoothedFullness) (hf1 : s.smoothedFullness ≤ 1)
    (hin0 : 0 ≤ fullness) (hin1 : fullness ≤ 1) :
    (FlowerField.update s volume fullness dtRaw pn env).targetCount
      = cppToInt (ofLerp 30 1500
          (FlowerField.update s volume fullness dtRaw pn env).state.activityLevel)
    ∧ (FlowerField.update s volume fullness dtRaw pn env).state.instances.length
        ≤ s.instances.length + 10
    ∧ (∀ (picks : ℕ → ℕ → ℕ) (i0 n : ℕ) (l : List FlowerInstance), n ≤ 5 →
         countFastDeath (FlowerField.markLoop picks i0 n l) ≤ countFastDeath l + 5)
    ∧ (s.instances.length ≤ 1500 →
        (FlowerField.update s volume fullness dtRaw pn env).state.instances.length ≤ 1500) := by
  refine ⟨update_target s volume fullness dtRaw pn env hreact, ?_, ?_, ?_⟩
  · exact le_trans (update_length_le s volume fullness dtRaw pn env)
      (length_popAdjust_le _ _ _)
  · intro picks i0 n l hn
    have := countFastDeath_markLoop picks n i0 l
    omega
  · intro hlen
    have hact := update_activity_bound s volume fullness dtRaw pn env ha0 ha1 hv0 hv1
      hf0 hf1 hin0 hin1
    have htgt : (FlowerField.update s volume fullness dtRaw pn env).targetCount ≤ 1500 := by
      rw [update_target s volume fullness dtRaw pn env hreact]
      exact cppToInt_lerp_le _ hact.1 hact.2
    exact le_trans (update_length_le s volume fullness dtRaw pn env)
      (length_popAdjust_bound _ _ _ hlen htgt)

/-- Witness for C2 on an empty reactive field. -/
theorem reactive_population_bound_w :
    (reactiveField.reactiveMode = true
     ∧ (0:ℚ) ≤ reactiveField.activityLevel ∧ reactiveField.activityLevel ≤ 1
     ∧ (0:ℚ) ≤ reactiveField.smoothedVolume ∧ reactiveField.smoothedVolume ≤ 1
     ∧ (0:ℚ) ≤ reactiveField.smoothedFullness ∧ reactiveField.smoothedFullness ≤ 1
     ∧ (0:ℚ) ≤ 0 ∧ (0:ℚ) ≤ 1)
    ∧ ((FlowerField.update reactiveField 0 0 1 0 constEnv).targetCount
        = cppToInt (ofLerp 30 1500
            (FlowerField.update reactiveField 0 0 1 0 constEnv).state.activityLevel)
      ∧ (FlowerField.update reactiveField 0 0 1 0 constEnv).state.instances.length
          ≤ reactiveField.instances.length + 10
      ∧ (∀ (picks : ℕ → ℕ → ℕ) (i0 n : ℕ) (l : List FlowerInstance), n ≤ 5 →
           countFastDeath (FlowerField.markLoop picks i0 n l) ≤ countFastDeath l + 5)
      ∧ (reactiveField.instances.length ≤ 1500 →
          (FlowerField.update reactiveField 0 0 1 0 constEnv).state.instances.length ≤ 1500)) := by
  refine ⟨⟨rfl, le_refl 0, by norm_num [reactiveField], le_refl 0,
    by norm_num [reactiveField], le_refl 0, by norm_num [reactiveField],
    le_refl 0, by norm_num⟩, ?_⟩
  exact reactive_population_bound reactiveField 0 0 1 0 constEnv rfl (le_refl 0)
    (by norm_num [reactiveField]) (le_refl 0) (by norm_num [reactiveField]) (le_refl 0)
    (by norm_num [reactiveField]) (le_refl 0) (by norm_num)

theorem headD_mem_of_length_pos {α : Type} [Inhabited α] (l : List α) (h : 0 < l.length) :
    l.headD default ∈ l := by
  cases l with
  | nil => simp at h
  | cons a t => simp

/-- C7: the instance collection is sorted by normalized vertical position
ascending after FlowerField::setup, and after every FlowerField::update
in which new instances were spawned or an instance respawned (the ticks
that raise needsSort). -/
theorem draw_order_sorted :
    (∀ (count : ℕ) (draws : ℕ → RespawnDraw) (phases : ℕ → ℚ),
       List.Sorted leY (FlowerField.setup count draws phases).instances)
    ∧ (∀ (s : FlowerField) (volume fullness dtRaw pn : ℚ) (env : UpdateEnv),
        (FlowerField.update s volume fullness dtRaw pn env).needsSort = true →
        List.Sorted leY (FlowerField.update s volume fullness dtRaw pn env).state.instances) := by
  constructor
  · intro count draws phases
    exact List.sorted_insertionSort leY _
  · intro s volume fullness dtRaw pn env h
    unfold FlowerField.update at h ⊢
    dsimp only at h ⊢
    rw [h, if_pos rfl]
    exact List.sorted_insertionSort leY _

theorem mem_finalize {fi : FlowerInstance} (l2 : List FlowerInstance) (b : Bool)
    (h : fi ∈ (if b then sortByY (l2.filter (fun g => decide (g.lifePhase < 2)))
               else l2.filter (fun g => decide (g.lifePhase < 2)))) :
    fi.lifePhase < 2 := by
  have hmem : fi ∈ l2.filter (fun g => decide (g.lifePhase < 2)) := by
    cases b
    · simpa using h
    · rw [if_pos rfl] at h
      exact (List.mem_insertionSort leY).mp h
  exact of_decide_eq_true (List.mem_filter.mp hmem).2

/-- C10: after FlowerField::update returns, no instance in the
collection carries a removal-sentinel lifePhase; every instance
sentinel-marked during the tick was erased before the update ended. -/
theorem no_pending_removal_after_update (s : FlowerField) (volume fullness dtRaw pn : ℚ)
    (env : UpdateEnv) :
    ∀ fi ∈ (FlowerField.update s volume fullness dtRaw pn env).state.instances,
      fi.lifePhase < 2 := by
  intro fi hfi
  unfold FlowerField.update at hfi
  dsimp only at hfi
  exact mem_finalize _ _ hfi

/-- Witness for C7: the calm field spawns its first instance during the
update, so needsSort is raised and the result is sorted. -/
theorem draw_order_sorted_w :
    (FlowerField.update calmField 0 0 1 0 constEnv).needsSort = true
    ∧ List.Sorted leY (FlowerField.update calmField 0 0 1 0 constEnv).state.instances := by
  have h : (FlowerField.update calmField 0 0 1 0 constEnv).needsSort = true := by
    norm_num [FlowerField.update, FlowerField.popAdjust, calmField, constEnv, ofClamp,
      ofLerp, cppToInt]
  exact ⟨h, draw_order_sorted.2 calmField 0 0 1 0 constEnv h⟩

set_option maxHeartbeats 1600000 in
/-- Witness for C10: the surviving instance of the calm-field update has
a lifePhase below the removal sentinel. -/
theorem no_pending_removal_after_update_w :
    0 < (FlowerField.update calmField 0 0 1 0 constEnv).state.instances.length
    ∧ ((FlowerField.update calmField 0 0 1 0 constEnv).state.instances.headD
        default).lifePhase < 2 := by
  have h1 : 0 < (FlowerField.update calmField 0 0 1 0 constEnv).state.instances.length := by
    norm_num [FlowerField.update, FlowerField.popAdjust, FlowerField.growInstances,
      FlowerField.respawnFlower, FlowerField.stepInstance, lifecycleOutputs, calmField,
      constEnv, constDraw, ofClamp, ofLerp, cppToInt, sortByY, beatStep, beatFires,
      beatVolumeQuotient, purgeBeatHistory, List.insertionSort, List.orderedInsert]
  exact ⟨h1, no_pending_removal_after_update calmField 0 0 1 0 constEnv _
    (headD_mem_of_length_pos _ h1)⟩
